import Mathlib

/-!
Shallow embedding of the BetterUndo VS Code extension (src/src/extension.ts,
the later variant of the file: the `betterundo.undoPressed` command wrapper
with the fixed 200 ms `endSongTimeout` stop-timer).

Modelling conventions:
* Module-level mutable variables (`isPlaying`, `threshold`, `last`, `volume`,
  `assistanceDelay`, `audio`, `endSongTimeout`) become fields of `AccState`,
  passed explicitly.
* `Date.now()` becomes an explicit `now : Int` parameter (milliseconds); the
  two `Date.now()` calls inside one handler invocation are the same tick.
* The pending `setTimeout` handle `endSongTimeout` is modelled as the
  deadline (`Option Int`): `clearTimeout` + `setTimeout(f, 200)` overwrites
  it with `some (now + 200)`; the scheduled callback body is
  `fireEndSongTimeout`; `checkTimer` fires it once the deadline has passed.
* The external `play-sound` handle `audio` is modelled as a `Bool` (a live
  handle with a `kill` method is held or not).
* Side effects on the host (spawning the player, killing it, information and
  error messages) are collected in a `List Cmd`.
* JS floats (`volume`, `assistanceDelay`) are modelled as `ℚ`; timestamps and
  the threshold accumulator as `Int` (the threshold only ever accumulates
  integer millisecond differences from 0).
-/

/-- A side effect commanded on the host / external audio player. -/
inductive Cmd where
  /-- Source: `soundPlayer.play(filePath, ..., cb)` invoked with derived
  volume argument `vol`. -/
  | startSound (vol : ℚ)
  /-- Source: `audio.kill()`. -/
  | killSound
  /-- Source: `vscode.window.showInformationMessage(...)`. -/
  | showInfo
  /-- Source: `vscode.window.showErrorMessage(...)`. -/
  | showError
  deriving DecidableEq, Repr

/-- Is the command a playback-start command? -/
def Cmd.isStart : Cmd → Bool
  | .startSound _ => true
  | _ => false

/-- The module-level mutable state of the extension. -/
structure AccState where
  /-- Source: `let isPlaying = false;` -/
  isPlaying : Bool
  /-- Source: `let threshold = 0;` (accumulated undo pressure, ms) -/
  threshold : Int
  /-- Source: `let last = 0;` (timestamp anchor; `0` is the unset sentinel) -/
  last : Int
  /-- Source: `let audio: any;` — whether a killable player handle is held -/
  audio : Bool
  /-- pending `endSongTimeout` deadline, if armed -/
  endSongTimeout : Option Int
  /-- Source: `let volume = 0.5;` -/
  volume : ℚ
  /-- Source: `let assistanceDelay = 0.8;` -/
  assistanceDelay : ℚ
  deriving DecidableEq, Repr

/-- The module-level initial values. -/
def initState : AccState :=
  { isPlaying := false, threshold := 0, last := 0, audio := false,
    endSongTimeout := none, volume := 1/2, assistanceDelay := 4/5 }

/-- Source function `playSound(filePath)`: spawns the player with volume argument
`volume * 0.25` and stores the handle in `audio`. -/
def playSound (s : AccState) : AccState × List Cmd :=
  ({ s with audio := true }, [Cmd.startSound (s.volume * (1/4))])

/-- The completion callback passed to `soundPlayer.play`: on error it logs and
shows an error message; it does not touch any state variable. -/
def playSoundCallback (s : AccState) (err : Bool) : AccState × List Cmd :=
  if err then (s, [Cmd.showError]) else (s, [])

/-- Source function `stopSound()`: if a killable handle is held, kill it and drop it;
otherwise do nothing. -/
def stopSound (s : AccState) : AccState × List Cmd :=
  if s.audio then ({ s with audio := false }, [Cmd.killSound]) else (s, [])

/-- Source function `stopPlaying()`: runs `stopSound()` and then zeroes
`isPlaying`, `threshold` and `last`. -/
def stopPlaying (s : AccState) : AccState × List Cmd :=
  ({ (stopSound s).1 with isPlaying := false, threshold := 0, last := 0 },
   (stopSound s).2)

/-- The `betterundo.undoPressed` command handler. `hasEditor` models
`vscode.window.activeTextEditor` being present; `documentChanged` models
`document.version !== initialVersion` after `executeCommand("undo")`;
`now` is `Date.now()`. -/
def undoPressed (hasEditor documentChanged : Bool) (now : Int)
    (s : AccState) : AccState × List Cmd :=
  if hasEditor = false then (s, [])
  else if documentChanged then
    let thr0 : Int := if s.threshold < 0 then 0 else s.threshold
    let last1 : Int := if s.last = 0 then now else s.last
    let timeDiff : Int := now - last1
    let thr1 : Int := thr0 + timeDiff
    if (thr1 : ℚ) ≥ s.assistanceDelay * 1000 then
      if s.isPlaying = false then
        ({ s with threshold := thr1, last := last1, isPlaying := true,
                  audio := true, endSongTimeout := some (now + 200) },
         [Cmd.startSound (s.volume * (1/4))])
      else
        ({ s with threshold := thr1, last := last1,
                  endSongTimeout := some (now + 200) }, [])
    else
      ({ s with threshold := thr1, last := last1,
                endSongTimeout := some (now + 200) }, [])
  else
    if s.isPlaying then
      (((stopPlaying s).1), (stopPlaying s).2)
    else
      ({ s with threshold := 0, last := 0 }, [])

/-- The `endSongTimeout` callback when it fires uncancelled: run
`stopPlaying()`; the timer is no longer pending afterwards. -/
def fireEndSongTimeout (s : AccState) : AccState × List Cmd :=
  ({ (stopPlaying s).1 with endSongTimeout := none }, (stopPlaying s).2)

/-- The host timer facility at time `now`: a pending `endSongTimeout` whose
deadline has passed fires; otherwise nothing happens. -/
def checkTimer (s : AccState) (now : Int) : AccState × List Cmd :=
  match s.endSongTimeout with
  | none => (s, [])
  | some d => if d ≤ now then fireEndSongTimeout s else (s, [])

/-- The workspace configuration: the two `betterundo.*` keys, each possibly
absent (in which case `config.get` returns its default). -/
structure Config where
  /-- Key `betterundo.volume`. -/
  volume : Option ℚ
  /-- Key `betterundo.assistanceDelay`. -/
  assistanceDelay : Option ℚ
  deriving DecidableEq, Repr

/-- Source function `updateSettings()`: `volume = config.get("volume", 0.5);
assistanceDelay = config.get("assistanceDelay", 0.8);` — the stored values
are the configuration values as supplied, with no clamping. -/
def updateSettings (cfg : Config) (s : AccState) : AccState :=
  { s with volume := cfg.volume.getD (1/2),
           assistanceDelay := cfg.assistanceDelay.getD (4/5) }

/-- Outcome of `showInputBox` followed by `parseFloat`:
`cancelled` is `result === undefined`; `nan` is a string for which
`parseFloat` returns `NaN` (for example "abc"); `parsed v` is a string
parsing to the number `v`. -/
inductive InputResult where
  | cancelled
  | nan
  | parsed (v : ℚ)
  deriving DecidableEq, Repr

/-- The `betterundo.setVolume` command handler: on a numeric input, clamp
with `Math.max(0, Math.min(1, newVolume))`, persist it and inform; on `NaN`
show an error and change nothing; on cancel do nothing. -/
def setVolume (input : InputResult) (cfg : Config) : Config × List Cmd :=
  match input with
  | .cancelled => (cfg, [])
  | .nan => (cfg, [Cmd.showError])
  | .parsed v =>
      ({ cfg with volume := some (max 0 (min 1 v)) }, [Cmd.showInfo])

/-- The `betterundo.setDelay` command handler: on a numeric input, clamp
with `Math.max(0, Math.min(5, newDelay))`, persist it and inform; on `NaN`
show an error and change nothing; on cancel do nothing. -/
def setDelay (input : InputResult) (cfg : Config) : Config × List Cmd :=
  match input with
  | .cancelled => (cfg, [])
  | .nan => (cfg, [Cmd.showError])
  | .parsed v =>
      ({ cfg with assistanceDelay := some (max 0 (min 5 v)) }, [Cmd.showInfo])

/-- Source function `deactivate()`: calls `stopSound()` when `isPlaying` is
true; no state variable is reassigned. -/
def deactivate (s : AccState) : AccState × List Cmd :=
  if s.isPlaying then stopSound s else (s, [])

/-- A concrete mid-burst playing state, used as a test fixture: the song is
playing, pressure has accumulated past the default 800 ms threshold, a live
audio handle is held and a stop-timer is pending. -/
def playingState : AccState :=
  { isPlaying := true, threshold := 5000, last := 777, audio := true,
    endSongTimeout := some 900, volume := 1/2, assistanceDelay := 4/5 }

/-- A test fixture flagged as playing while no live audio handle is held. -/
def playingNoAudioState : AccState :=
  { isPlaying := true, threshold := 900, last := 400, audio := false,
    endSongTimeout := some 600, volume := 1/2, assistanceDelay := 4/5 }

/-- C1 (counterexample): the claim predicts that after qualifying events at
offsets +0, +400 and +900 ms of a burst (absolute times 10000, 10400, 10900,
since `Date.now()` is never the sentinel 0) the threshold is the sum of the
consecutive gaps, 900 after the third event. The handler never reassigns
`last` after the first event of a burst, so the third threshold is 1300,
not 900. -/
theorem C1_counterexample :
    ¬ ((undoPressed true true 10900 (undoPressed true true 10400
        (undoPressed true true 10000 initState).1).1).1.threshold = 900) := by
  norm_num [undoPressed, initState]

/-- C1 (amended): each qualifying event computes
`elapsed = now - last` where `last` is set to `now` only when it was 0 (the
first event of a burst) and is never reassigned afterwards, so the threshold
accumulates `now - t_first` per event, not the gaps; with
`assistanceDelay = 0.8 s` and qualifying events at +0, +400, +900 ms
(handler invocations alone), the thresholds are 0, 400 and 1300, and the
playback-start command is issued exactly at the third event. -/
theorem C1_amended :
    (∀ (s : AccState) (now : Int),
        (undoPressed true true now s).1.last
            = (if s.last = 0 then now else s.last)
        ∧ (undoPressed true true now s).1.threshold
            = (if s.threshold < 0 then 0 else s.threshold)
              + (now - (if s.last = 0 then now else s.last)))
    ∧ ((undoPressed true true 10000 initState).1.threshold = 0
       ∧ (undoPressed true true 10400 (undoPressed true true 10000
            initState).1).1.threshold = 400
       ∧ (undoPressed true true 10900 (undoPressed true true 10400
            (undoPressed true true 10000 initState).1).1).1.threshold = 1300
       ∧ (undoPressed true true 10000 initState).1.isPlaying = false
       ∧ (undoPressed true true 10400 (undoPressed true true 10000
            initState).1).1.isPlaying = false
       ∧ (undoPressed true true 10900 (undoPressed true true 10400
            (undoPressed true true 10000 initState).1).1).1.isPlaying = true
       ∧ (undoPressed true true 10000 initState).2.countP Cmd.isStart = 0
       ∧ (undoPressed true true 10400 (undoPressed true true 10000
            initState).1).2.countP Cmd.isStart = 0
       ∧ (undoPressed true true 10900 (undoPressed true true 10400
            (undoPressed true true 10000 initState).1).1).2.countP
            Cmd.isStart = 1) := by
  constructor
  · intro s now
    simp only [undoPressed]
    norm_num
    split <;> split <;> simp [apply_ite]
  · refine ⟨?_, ?_, ?_, ?_, ?_, ?_, ?_, ?_, ?_⟩ <;>
      norm_num [undoPressed, initState, List.countP, List.countP.go, Cmd.isStart]

/-- C2: every qualifying undo event arms the stop-timer with deadline
`now + 200`, whatever the prior state (any pending timer is overwritten,
i.e. cancelled); if the timer is still pending at any `fireTime` past that
deadline — no qualifying event has re-armed it — it fires and forces the
idle state: playback stops and `threshold` and `last` reset to 0, even when
the threshold had already exceeded the configured delay. -/
theorem C2_stop_timer (s : AccState) (now fireTime : Int)
    (h : now + 200 ≤ fireTime) :
    (undoPressed true true now s).1.endSongTimeout = some (now + 200)
    ∧ (checkTimer (undoPressed true true now s).1 fireTime).1.isPlaying = false
    ∧ (checkTimer (undoPressed true true now s).1 fireTime).1.threshold = 0
    ∧ (checkTimer (undoPressed true true now s).1 fireTime).1.last = 0
    ∧ (checkTimer (undoPressed true true now s).1 fireTime).1.endSongTimeout
        = none := by
  have ht : (undoPressed true true now s).1.endSongTimeout
      = some (now + 200) := by
    simp only [undoPressed]
    norm_num
    split <;> split <;> simp [apply_ite]
  refine ⟨ht, ?_, ?_, ?_, ?_⟩ <;>
    simp [checkTimer, ht, h, fireEndSongTimeout, stopPlaying, stopSound]

/-- C2 (witness): instantiated at `playingState` (threshold 5000 ≥ 800) with
an event at 10000 and the timer firing at 10300. -/
theorem C2_witness :
    (10000 : Int) + 200 ≤ 10300
    ∧ (undoPressed true true 10000 playingState).1.endSongTimeout
        = some (10000 + 200)
    ∧ (checkTimer (undoPressed true true 10000 playingState).1
        10300).1.isPlaying = false
    ∧ (checkTimer (undoPressed true true 10000 playingState).1
        10300).1.threshold = 0
    ∧ (checkTimer (undoPressed true true 10000 playingState).1
        10300).1.last = 0 :=
  ⟨by decide, (C2_stop_timer playingState 10000 10300 (by decide)).1,
    (C2_stop_timer playingState 10000 10300 (by decide)).2.1,
    (C2_stop_timer playingState 10000 10300 (by decide)).2.2.1,
    (C2_stop_timer playingState 10000 10300 (by decide)).2.2.2.1⟩

/-- C3: an undo invocation that does not change the document resets
`threshold` and `last` to 0 and leaves playback off, for every prior state;
if playback was active it is stopped (the audio handle is killed). -/
theorem C3_noop_undo_resets (s : AccState) (now : Int) :
    (undoPressed true false now s).1.threshold = 0
    ∧ (undoPressed true false now s).1.last = 0
    ∧ (undoPressed true false now s).1.isPlaying = false
    ∧ (s.isPlaying = true → (undoPressed true false now s).1.audio = false)
    ∧ (s.isPlaying = true → s.audio = true →
        (undoPressed true false now s).2 = [Cmd.killSound]) := by
  cases hp : s.isPlaying <;> cases ha : s.audio <;>
    simp [undoPressed, stopPlaying, stopSound, hp, ha]

/-- C3 (witness): instantiated at `playingState`. -/
theorem C3_witness :
    playingState.isPlaying = true
    ∧ (undoPressed true false 9000 playingState).1.threshold = 0
    ∧ (undoPressed true false 9000 playingState).1.last = 0
    ∧ (undoPressed true false 9000 playingState).1.isPlaying = false
    ∧ (undoPressed true false 9000 playingState).1.audio = false
    ∧ (undoPressed true false 9000 playingState).2 = [Cmd.killSound] :=
  ⟨rfl, (C3_noop_undo_resets playingState 9000).1,
    (C3_noop_undo_resets playingState 9000).2.1,
    (C3_noop_undo_resets playingState 9000).2.2.1,
    (C3_noop_undo_resets playingState 9000).2.2.2.1 rfl,
    (C3_noop_undo_resets playingState 9000).2.2.2.2 rfl rfl⟩

/-- C4 (counterexample): `updateSettings` does not clamp: a configuration
supplying volume 7 and assistanceDelay 9 is stored as-is, outside [0, 1]
and [0, 5]. -/
theorem C4_counterexample :
    ¬ (0 ≤ (updateSettings ⟨some 7, some 9⟩ initState).volume
       ∧ (updateSettings ⟨some 7, some 9⟩ initState).volume ≤ 1
       ∧ 0 ≤ (updateSettings ⟨some 7, some 9⟩ initState).assistanceDelay
       ∧ (updateSettings ⟨some 7, some 9⟩ initState).assistanceDelay ≤ 5) := by
  norm_num [updateSettings]

/-- C4 (amended): `updateSettings` stores the configuration values exactly
as supplied (defaults 0.5 and 0.8 when the keys are absent); the stored
values lie in [0, 1] and [0, 5] whenever the supplied configuration values
do — the defaults are in range, but nothing is clamped at this boundary. -/
theorem C4_amended (cfg : Config) (s : AccState)
    (hv : ∀ v, cfg.volume = some v → 0 ≤ v ∧ v ≤ 1)
    (hd : ∀ d, cfg.assistanceDelay = some d → 0 ≤ d ∧ d ≤ 5) :
    (updateSettings cfg s).volume = cfg.volume.getD (1/2)
    ∧ (updateSettings cfg s).assistanceDelay = cfg.assistanceDelay.getD (4/5)
    ∧ 0 ≤ (updateSettings cfg s).volume
    ∧ (updateSettings cfg s).volume ≤ 1
    ∧ 0 ≤ (updateSettings cfg s).assistanceDelay
    ∧ (updateSettings cfg s).assistanceDelay ≤ 5 := by
  have h1 : 0 ≤ cfg.volume.getD (1/2) ∧ cfg.volume.getD (1/2) ≤ 1 := by
    rcases hcv : cfg.volume with _ | v
    · norm_num [Option.getD_none]
    · simpa [Option.getD_some] using hv v hcv
  have h2 : 0 ≤ cfg.assistanceDelay.getD (4/5)
      ∧ cfg.assistanceDelay.getD (4/5) ≤ 5 := by
    rcases hcd : cfg.assistanceDelay with _ | d
    · norm_num [Option.getD_none]
    · simpa [Option.getD_some] using hd d hcd
  exact ⟨rfl, rfl, h1.1, h1.2, h2.1, h2.2⟩

/-- C4 (witness): instantiated at the empty configuration, whose defaults
are stored and lie in range. -/
theorem C4_amended_witness :
    (updateSettings ⟨none, none⟩ initState).volume = (1/2 : ℚ)
    ∧ 0 ≤ (updateSettings ⟨none, none⟩ initState).volume
    ∧ (updateSettings ⟨none, none⟩ initState).volume ≤ 1
    ∧ 0 ≤ (updateSettings ⟨none, none⟩ initState).assistanceDelay
    ∧ (updateSettings ⟨none, none⟩ initState).assistanceDelay ≤ 5 :=
  ⟨(C4_amended ⟨none, none⟩ initState (by simp) (by simp)).1,
    (C4_amended ⟨none, none⟩ initState (by simp) (by simp)).2.2.1,
    (C4_amended ⟨none, none⟩ initState (by simp) (by simp)).2.2.2.1,
    (C4_amended ⟨none, none⟩ initState (by simp) (by simp)).2.2.2.2.1,
    (C4_amended ⟨none, none⟩ initState (by simp) (by simp)).2.2.2.2.2⟩

/-- C5 (code behaviour at the failing input): when the audio player reports
an error while the accumulator believes playback is active, the play
callback shows the user-facing error message but leaves `isPlaying` true —
it is NOT reset to false as the claim (and the design intent) states. -/
theorem C5_code_behavior :
    playSoundCallback playingState true = (playingState, [Cmd.showError])
    ∧ (playSoundCallback playingState true).1.isPlaying = true :=
  ⟨rfl, rfl⟩

/-- C6 (counterexample): `deactivate` on an active playing state does not
reset the state entities — `threshold` stays 5000, `last` stays 777 and
`isPlaying` stays true. -/
theorem C6_counterexample :
    ¬ ((deactivate playingState).1.threshold = 0
       ∧ (deactivate playingState).1.last = 0
       ∧ (deactivate playingState).1.isPlaying = false) := by
  simp [deactivate, stopSound, playingState]

/-- C6 (amended): on deactivation the scalar state entities `threshold`,
`last` and `isPlaying` are left unchanged (not reset to defaults); the only
effect is that the audio handle is killed when playback is active. -/
theorem C6_amended (s : AccState) :
    (deactivate s).1.threshold = s.threshold
    ∧ (deactivate s).1.last = s.last
    ∧ (deactivate s).1.isPlaying = s.isPlaying
    ∧ (s.isPlaying = true → s.audio = true →
        (deactivate s).1.audio = false
          ∧ (deactivate s).2 = [Cmd.killSound]) := by
  cases hp : s.isPlaying <;> cases ha : s.audio <;>
    simp [deactivate, stopSound, hp, ha]

/-- C6 (witness): instantiated at `playingState`. -/
theorem C6_amended_witness :
    (deactivate playingState).1.threshold = playingState.threshold
    ∧ (deactivate playingState).1.isPlaying = playingState.isPlaying
    ∧ (deactivate playingState).1.audio = false
    ∧ (deactivate playingState).2 = [Cmd.killSound] :=
  ⟨(C6_amended playingState).1, (C6_amended playingState).2.2.1,
    ((C6_amended playingState).2.2.2 rfl rfl).1,
    ((C6_amended playingState).2.2.2 rfl rfl).2⟩

set_option maxHeartbeats 2000000 in
/-- C7: a single handler invocation emits a playback-start command exactly
when the state transitions from not playing to playing (never a duplicate
start while already playing, and never more than one start); the stop-timer
callback never emits a start; and stop is idempotent — `stopSound` with no
live handle is a no-op with no commands, and `stopPlaying` with no live
handle emits no command. -/
theorem C7_single_start (hasEditor documentChanged : Bool) (now : Int)
    (s : AccState) :
    ((undoPressed hasEditor documentChanged now s).2.countP Cmd.isStart = 1
        ↔ s.isPlaying = false
          ∧ (undoPressed hasEditor documentChanged now s).1.isPlaying = true)
    ∧ (undoPressed hasEditor documentChanged now s).2.countP Cmd.isStart ≤ 1
    ∧ (s.isPlaying = true →
        (undoPressed hasEditor documentChanged now s).2.countP Cmd.isStart = 0)
    ∧ (checkTimer s now).2.countP Cmd.isStart = 0
    ∧ (s.audio = false → stopSound s = (s, []))
    ∧ (s.audio = false → (stopPlaying s).2 = []) := by
  cases he : hasEditor <;> cases dc : documentChanged <;>
    cases hp : s.isPlaying <;> cases ha : s.audio <;>
    rcases ht : s.endSongTimeout with _ | dl <;>
    simp only [undoPressed, checkTimer, fireEndSongTimeout, stopPlaying,
      stopSound, hp, ha, ht] <;>
    split_ifs <;>
    simp_all [Cmd.isStart, List.countP_cons, List.countP_nil]

/-- C7 (witness): instantiated at a state already flagged as playing with no
live handle — a qualifying event emits no duplicate start, and stopping is
a commandless no-op. -/
theorem C7_witness :
    playingNoAudioState.isPlaying = true
    ∧ playingNoAudioState.audio = false
    ∧ (undoPressed true true 5000 playingNoAudioState).2.countP Cmd.isStart = 0
    ∧ stopSound playingNoAudioState = (playingNoAudioState, []) :=
  ⟨rfl, rfl, (C7_single_start true true 5000 playingNoAudioState).2.2.1 rfl,
    (C7_single_start true true 5000 playingNoAudioState).2.2.2.2.1 rfl⟩

/-- C8: `setVolume` clamps every numeric input to [0, 1] and `setDelay`
clamps every numeric input to [0, 5] before persisting; concretely, volume
input -1 stores 0, volume input 2 stores 1, delay input -1 stores 0 and
delay input 10 stores 5. -/
theorem C8_clamping (v d : ℚ) (cfg : Config) :
    (setVolume (.parsed v) cfg).1.volume = some (max 0 (min 1 v))
    ∧ (0 : ℚ) ≤ max 0 (min 1 v) ∧ max 0 (min 1 v) ≤ 1
    ∧ (setDelay (.parsed d) cfg).1.assistanceDelay = some (max 0 (min 5 d))
    ∧ (0 : ℚ) ≤ max 0 (min 5 d) ∧ max 0 (min 5 d) ≤ 5
    ∧ (setVolume (.parsed (-1)) cfg).1.volume = some 0
    ∧ (setVolume (.parsed 2) cfg).1.volume = some 1
    ∧ (setDelay (.parsed (-1)) cfg).1.assistanceDelay = some 0
    ∧ (setDelay (.parsed 10) cfg).1.assistanceDelay = some 5 := by
  refine ⟨rfl, le_max_left 0 _, max_le (by norm_num) (min_le_left 1 v),
    rfl, le_max_left 0 _, max_le (by norm_num) (min_le_left 5 d),
    ?_, ?_, ?_, ?_⟩ <;> norm_num [setVolume, setDelay]

/-- C9: a non-numeric input (one `parseFloat` maps to `NaN`, such as "abc")
submitted to `setVolume` or `setDelay` surfaces an error message and leaves
the stored configuration unchanged — no update is issued. -/
theorem C9_nan_rejected (cfg : Config) :
    setVolume .nan cfg = (cfg, [Cmd.showError])
    ∧ setDelay .nan cfg = (cfg, [Cmd.showError]) :=
  ⟨rfl, rfl⟩

/-- C10: `stopPlaying` is idempotent on the accumulator state — applied in
the idle state (not playing, threshold 0, last 0, no handle) it is an exact
no-op; and the not-changed undo branch leaves the pending stop-timer armed
(`endSongTimeout` unchanged), but since that branch already zeroes the
accumulator, the timer firing afterwards leaves `threshold`, `last` and
`isPlaying` exactly as they were. -/
theorem C10_stop_idempotent :
    (∀ s : AccState, s.isPlaying = false → s.threshold = 0 → s.last = 0 →
        s.audio = false → stopPlaying s = (s, []))
    ∧ (∀ (s : AccState) (now : Int),
        (undoPressed true false now s).1.endSongTimeout = s.endSongTimeout
        ∧ (fireEndSongTimeout (undoPressed true false now s).1).1.threshold
            = (undoPressed true false now s).1.threshold
        ∧ (fireEndSongTimeout (undoPressed true false now s).1).1.last
            = (undoPressed true false now s).1.last
        ∧ (fireEndSongTimeout (undoPressed true false now s).1).1.isPlaying
            = (undoPressed true false now s).1.isPlaying) := by
  constructor
  · intro s h1 h2 h3 h4
    cases s
    simp_all [stopPlaying, stopSound]
  · intro s now
    cases hp : s.isPlaying <;> cases ha : s.audio <;>
      simp [undoPressed, fireEndSongTimeout, stopPlaying, stopSound, hp, ha]

/-- C10 (witness): instantiated at the initial (idle) state. -/
theorem C10_witness :
    stopPlaying initState = (initState, [])
    ∧ (undoPressed true false 42 initState).1.endSongTimeout
        = initState.endSongTimeout :=
  ⟨C10_stop_idempotent.1 initState rfl rfl rfl rfl,
    (C10_stop_idempotent.2 initState 42).1⟩
